import Mathlib

/-!
Verification of the GA4GH VRS digest and translation layer.

Definitions in the `VrsPython` namespace embed the repository's code:
`ga4gh_digest` (src/ga4gh/vr/_internal/digest.py) together with the SHA-512
and base64url primitives it calls, and `IRI.ga4gh_serialize`
(src/ga4gh/core/_internal/models.py).  The allele translator
(`AlleleTranslator`) is exercised only through its tests here, so its
parsers, normalizer and renderers are modelled from the specification and
pinned by the literal vectors of tests/extras/test_allele_translator.py.
Machine words are `Nat` values reduced modulo `2 ^ 64`; bytes are `Nat`
values below 256.
-/

set_option maxRecDepth 100000

namespace VrsPython

/-- `2 ^ 64`, the modulus for 64-bit words used by SHA-512. -/
def M64 : Nat := 18446744073709551616

/-- Right rotation of a 64-bit word by `n` places. -/
def rotr64 (n x : Nat) : Nat := (x >>> n) ||| ((x <<< (64 - n)) % M64)

/-- SHA-512 small sigma-0: rotr 1 xor rotr 8 xor shr 7. -/
def sSig0 (x : Nat) : Nat := (rotr64 1 x) ^^^ (rotr64 8 x) ^^^ (x >>> 7)

/-- SHA-512 small sigma-1: rotr 19 xor rotr 61 xor shr 6. -/
def sSig1 (x : Nat) : Nat := (rotr64 19 x) ^^^ (rotr64 61 x) ^^^ (x >>> 6)

/-- SHA-512 big Sigma-0: rotr 28 xor rotr 34 xor rotr 39. -/
def bSig0 (x : Nat) : Nat := (rotr64 28 x) ^^^ (rotr64 34 x) ^^^ (rotr64 39 x)

/-- SHA-512 big Sigma-1: rotr 14 xor rotr 18 xor rotr 41. -/
def bSig1 (x : Nat) : Nat := (rotr64 14 x) ^^^ (rotr64 18 x) ^^^ (rotr64 41 x)

/-- The 80 SHA-512 round constants (fractional cube roots of the first 80
primes), as 64-bit words. -/
def shaK : List Nat :=
  [4794697086780616226, 8158064640168781261, 13096744586834688815, 16840607885511220156,
   4131703408338449720, 6480981068601479193, 10538285296894168987, 12329834152419229976,
   15566598209576043074, 1334009975649890238, 2608012711638119052, 6128411473006802146,
   8268148722764581231, 9286055187155687089, 11230858885718282805, 13951009754708518548,
   16472876342353939154, 17275323862435702243, 1135362057144423861, 2597628984639134821,
   3308224258029322869, 5365058923640841347, 6679025012923562964, 8573033837759648693,
   10970295158949994411, 12119686244451234320, 12683024718118986047, 13788192230050041572,
   14330467153632333762, 15395433587784984357, 489312712824947311, 1452737877330783856,
   2861767655752347644, 3322285676063803686, 5560940570517711597, 5996557281743188959,
   7280758554555802590, 8532644243296465576, 9350256976987008742, 10552545826968843579,
   11727347734174303076, 12113106623233404929, 14000437183269869457, 14369950271660146224,
   15101387698204529176, 15463397548674623760, 17586052441742319658, 1182934255886127544,
   1847814050463011016, 2177327727835720531, 2830643537854262169, 3796741975233480872,
   4115178125766777443, 5681478168544905931, 6601373596472566643, 7507060721942968483,
   8399075790359081724, 8693463985226723168, 9568029438360202098, 10144078919501101548,
   10430055236837252648, 11840083180663258601, 13761210420658862357, 14299343276471374635,
   14566680578165727644, 15097957966210449927, 16922976911328602910, 17689382322260857208,
   500013540394364858, 748580250866718886, 1242879168328830382, 1977374033974150939,
   2944078676154940804, 3659926193048069267, 4368137639120453308, 4836135668995329356,
   5532061633213252278, 6448918945643986474, 6902733635092675308, 7801388544844847127]

/-- The SHA-512 hash state: eight 64-bit registers. -/
structure Sha512H where
  r0 : Nat
  r1 : Nat
  r2 : Nat
  r3 : Nat
  r4 : Nat
  r5 : Nat
  r6 : Nat
  r7 : Nat

/-- The SHA-512 initial hash value (fractional square roots of the first
eight primes). -/
def shaH0 : Sha512H :=
  ⟨7640891576956012808, 13503953896175478587, 4354685564936845355, 11912009170470909681,
   5840696475078001361, 11170449401992604703, 2270897969802886507, 6620516959819538809⟩

/-- Big-endian 16-byte encoding of a message bit length. -/
def lenBytes16 (n : Nat) : List Nat :=
  [(n >>> 120) % 256, (n >>> 112) % 256, (n >>> 104) % 256, (n >>> 96) % 256,
   (n >>> 88) % 256, (n >>> 80) % 256, (n >>> 72) % 256, (n >>> 64) % 256,
   (n >>> 56) % 256, (n >>> 48) % 256, (n >>> 40) % 256, (n >>> 32) % 256,
   (n >>> 24) % 256, (n >>> 16) % 256, (n >>> 8) % 256, n % 256]

/-- SHA-512 padding: append `0x80`, zero bytes to 112 mod 128, then the
bit length as a 16-byte big-endian integer. -/
def padMessage (msg : List Nat) : List Nat :=
  let L := msg.length
  msg ++ 128 :: List.replicate ((239 - L % 128) % 128) 0 ++ lenBytes16 (8 * L)

/-- Interpret 8 consecutive bytes as a big-endian 64-bit word. -/
def bytesToWord (l : List Nat) : Nat :=
  l.foldl (fun acc b => acc * 256 + b % 256) 0

/-- Split a padded message into the big-endian 64-bit words of its blocks,
16 words per 128-byte block (fuel-driven structural recursion). -/
def toWords : Nat → List Nat → List Nat
  | 0, _ => []
  | _, [] => []
  | fuel + 1, l => bytesToWord (l.take 8) :: toWords fuel (l.drop 8)

/-- Extend a (reversed) 16-word message schedule by `n` further words. -/
def extSched : Nat → List Nat → List Nat
  | 0, acc => acc.reverse
  | n + 1, acc =>
      let w2 := acc.getD 1 0
      let w7 := acc.getD 6 0
      let w15 := acc.getD 14 0
      let w16 := acc.getD 15 0
      extSched n (((sSig1 w2 + w7 + sSig0 w15 + w16) % M64) :: acc)

/-- One SHA-512 round: update the working registers with constant `k` and
schedule word `w`. -/
def shaRound (s : Sha512H) (kw : Nat × Nat) : Sha512H :=
  let t1 := (s.r7 + bSig1 s.r4 + ((s.r4 &&& s.r5) ^^^ ((M64 - 1 - s.r4) &&& s.r6))
             + kw.1 + kw.2) % M64
  let t2 := (bSig0 s.r0 + ((s.r0 &&& s.r1) ^^^ (s.r0 &&& s.r2) ^^^ (s.r1 &&& s.r2))) % M64
  ⟨(t1 + t2) % M64, s.r0, s.r1, s.r2, (s.r3 + t1) % M64, s.r4, s.r5, s.r6⟩

/-- Compress one 16-word block into the hash state. -/
def shaCompress (h : Sha512H) (block16 : List Nat) : Sha512H :=
  let w := extSched 64 block16.reverse
  let s := (shaK.zip w).foldl shaRound h
  ⟨(h.r0 + s.r0) % M64, (h.r1 + s.r1) % M64, (h.r2 + s.r2) % M64, (h.r3 + s.r3) % M64,
   (h.r4 + s.r4) % M64, (h.r5 + s.r5) % M64, (h.r6 + s.r6) % M64, (h.r7 + s.r7) % M64⟩

/-- Fold the compression function over successive 16-word blocks. -/
def shaBlocks : Nat → Sha512H → List Nat → Sha512H
  | 0, h, _ => h
  | _, h, [] => h
  | fuel + 1, h, ws => shaBlocks fuel (shaCompress h (ws.take 16)) (ws.drop 16)

/-- Big-endian byte expansion of a 64-bit word. -/
def wordBytes (w : Nat) : List Nat :=
  [(w >>> 56) % 256, (w >>> 48) % 256, (w >>> 40) % 256, (w >>> 32) % 256,
   (w >>> 24) % 256, (w >>> 16) % 256, (w >>> 8) % 256, w % 256]

/-- SHA-512 digest of a byte list: the 64-byte big-endian rendering of the
final hash state (`hashlib.sha512(blob).digest()`). -/
def sha512Bytes (msg : List Nat) : List Nat :=
  let padded := padMessage msg
  let ws := toWords padded.length padded
  let h := shaBlocks ws.length shaH0 ws
  wordBytes h.r0 ++ wordBytes h.r1 ++ wordBytes h.r2 ++ wordBytes h.r3 ++
  wordBytes h.r4 ++ wordBytes h.r5 ++ wordBytes h.r6 ++ wordBytes h.r7

/-- The base64url alphabet (RFC 4648 section 5), as used by
`base64.urlsafe_b64encode`. -/
def b64urlAlphabet : List Char :=
  ['A', 'B', 'C', 'D', 'E', 'F', 'G', 'H', 'I', 'J', 'K', 'L', 'M',
   'N', 'O', 'P', 'Q', 'R', 'S', 'T', 'U', 'V', 'W', 'X', 'Y', 'Z',
   'a', 'b', 'c', 'd', 'e', 'f', 'g', 'h', 'i', 'j', 'k', 'l', 'm',
   'n', 'o', 'p', 'q', 'r', 's', 't', 'u', 'v', 'w', 'x', 'y', 'z',
   '0', '1', '2', '3', '4', '5', '6', '7', '8', '9', '-', '_']

/-- Look up a 6-bit group in the base64url alphabet. -/
def b64c (i : Nat) : Char := b64urlAlphabet.getD (i % 64) 'A'

/-- Base64url encoding with `'='` padding, 3 input bytes per 4 output
characters, as performed by `base64.urlsafe_b64encode`. -/
def b64urlEncode : List Nat → List Char
  | b1 :: b2 :: b3 :: rest =>
      b64c ((b1 % 256) >>> 2) :: b64c (((b1 % 4) <<< 4) ||| ((b2 % 256) >>> 4)) ::
      b64c (((b2 % 16) <<< 2) ||| ((b3 % 256) >>> 6)) :: b64c (b3 % 64) ::
      b64urlEncode rest
  | [b1, b2] =>
      [b64c ((b1 % 256) >>> 2), b64c (((b1 % 4) <<< 4) ||| ((b2 % 256) >>> 4)),
       b64c ((b2 % 16) <<< 2), '=']
  | [b1] =>
      [b64c ((b1 % 256) >>> 2), b64c ((b1 % 4) <<< 4), '=', '=']
  | [] => []

/-- `ga4gh_digest(blob, digest_size)` from src/ga4gh/vr/_internal/digest.py:
SHA-512 the blob, truncate to `digest_size` bytes, base64url-encode. -/
def ga4gh_digest_sized (blob : List Nat) (digest_size : Nat) : String :=
  ⟨b64urlEncode ((sha512Bytes blob).take digest_size)⟩

/-- `ga4gh_digest(blob)` with the default `digest_size=24`. -/
def ga4gh_digest (blob : List Nat) : String := ga4gh_digest_sized blob 24

/-- ASCII byte list of a string, for feeding text to the digest. -/
def asciiBytes (s : String) : List Nat := s.data.map Char.toNat

/-- Every character produced by the alphabet lookup is in the base64url
alphabet. -/
theorem b64c_mem (i : Nat) : b64c i ∈ b64urlAlphabet := by
  have h : i % 64 < 64 := Nat.mod_lt _ (by norm_num)
  have hall : ∀ j, j < 64 → b64urlAlphabet.getD j 'A' ∈ b64urlAlphabet := by decide
  exact hall _ h

/-- The encoder emits 4 characters for every 3 input bytes, rounding up. -/
theorem b64urlEncode_length (l : List Nat) :
    (b64urlEncode l).length = 4 * ((l.length + 2) / 3) := by
  induction l using b64urlEncode.induct with
  | case1 b1 b2 b3 rest ih => simp [b64urlEncode, ih]; omega
  | case2 b1 b2 => simp [b64urlEncode]
  | case3 b1 => simp [b64urlEncode]
  | case4 => simp [b64urlEncode]

/-- When the input length is a multiple of 3, every output character is an
alphabet character (no padding is produced). -/
theorem b64urlEncode_mem_of_three (l : List Nat) (h : l.length % 3 = 0) :
    ∀ c ∈ b64urlEncode l, c ∈ b64urlAlphabet := by
  induction l using b64urlEncode.induct with
  | case1 b1 b2 b3 rest ih =>
      intro c hc
      simp only [b64urlEncode, List.mem_cons] at hc
      rcases hc with rfl | rfl | rfl | rfl | hc
      · exact b64c_mem _
      · exact b64c_mem _
      · exact b64c_mem _
      · exact b64c_mem _
      · exact ih (by simp at h ⊢; omega) c hc
  | case2 b1 b2 => simp at h
  | case3 b1 => simp at h
  | case4 => simp [b64urlEncode]

/-- When the input length is not a multiple of 3, the encoder's output ends
in a `'='` padding character. -/
theorem b64urlEncode_getLast (l : List Nat) (h : l.length % 3 ≠ 0) :
    (b64urlEncode l).getLast? = some '=' := by
  induction l using b64urlEncode.induct with
  | case1 b1 b2 b3 rest ih =>
      have hr : rest.length % 3 ≠ 0 := by simp at h ⊢; omega
      have htail := ih hr
      have hne : b64urlEncode rest ≠ [] := by
        intro he
        rw [he] at htail
        simp at htail
      obtain ⟨y, ys, hys⟩ := List.exists_cons_of_ne_nil hne
      simp only [b64urlEncode, hys] at htail ⊢
      simpa [List.getLast?_cons_cons] using htail
  | case2 b1 b2 => simp [b64urlEncode]
  | case3 b1 => simp [b64urlEncode]
  | case4 => simp at h

/-- The SHA-512 digest is always 64 bytes long. -/
theorem sha512Bytes_length (b : List Nat) : (sha512Bytes b).length = 64 := by
  simp [sha512Bytes, wordBytes]

/-- Decidable membership in the alphabet `[A-Za-z0-9_-]`. -/
def isB64urlChar (c : Char) : Bool :=
  ('A' ≤ c && c ≤ 'Z') || ('a' ≤ c && c ≤ 'z') || ('0' ≤ c && c ≤ '9') ||
  c = '-' || c = '_'

/-- Each alphabet character satisfies the `[A-Za-z0-9_-]` test. -/
theorem b64urlAlphabet_chars (c : Char) (h : c ∈ b64urlAlphabet) :
    isB64urlChar c = true := by
  have hall : ∀ x ∈ b64urlAlphabet, isB64urlChar x = true := by decide
  exact hall c h

/-- Truncating the SHA-512 digest to `d ≤ 64` bytes leaves exactly `d`
bytes. -/
theorem sha512Bytes_take_length (b : List Nat) (d : Nat) (h : d ≤ 64) :
    ((sha512Bytes b).take d).length = d := by
  rw [List.length_take, sha512Bytes_length]
  omega

/-- When the truncation size is a multiple of 3, every character of the
encoded digest is in the alphabet. -/
theorem digest_sized_all_alpha (b : List Nat) (d : Nat) (hle : d ≤ 64)
    (h3 : d % 3 = 0) :
    ((ga4gh_digest_sized b d).data.all isB64urlChar) = true := by
  rw [List.all_eq_true]
  intro c hc
  exact b64urlAlphabet_chars c
    (b64urlEncode_mem_of_three _ (by rw [sha512Bytes_take_length b d hle]; omega) c hc)

/-- Split a character list at every occurrence of `sep`, keeping empty
segments (the behavior of `str.split(sep)` / `re`-style field splitting). -/
def splitOnChar (sep : Char) : List Char → List (List Char)
  | [] => [[]]
  | c :: rest =>
      let r := splitOnChar sep rest
      if c = sep then [] :: r
      else
        match r with
        | h :: t => (c :: h) :: t
        | [] => [[c]]

/-- Decimal digit test. -/
def isDigitChar (c : Char) : Bool := '0' ≤ c && c ≤ '9'

/-- Value of a decimal digit string. -/
def natOfDigits (l : List Char) : Nat :=
  l.foldl (fun a c => a * 10 + (c.toNat - 48)) 0

/-- Modelled from the spec: the IUPAC characters admitted by the gnomAD
notation's allele fields (`ACGTURYKMSWBDHVN`); the gnomAD parser itself is
not under src/. -/
def gnomadAlleleChars : List Char :=
  ['A', 'C', 'G', 'T', 'U', 'R', 'Y', 'K', 'M', 'S', 'W', 'B', 'D', 'H', 'V', 'N']

/-- Modelled from the spec: `SequenceReference`, an accession string for a
reference sequence (the declarative schema layer is not under src/). -/
structure SequenceReference where
  refgetAccession : String
deriving DecidableEq

/-- Modelled from the spec: a location's `sequenceReference` field is
either a resolved `SequenceReference` or a deferred IRI reference token. -/
inductive SeqRef where
  | resolved (r : SequenceReference)
  | iri (s : String)
deriving DecidableEq

/-- Modelled from the spec: `SequenceLocation` with zero-based half-open
`start`/`end` offsets (the `stop` field embeds the model's `end`). -/
structure SequenceLocation where
  start : Nat
  stop : Nat
  sequenceReference : SeqRef
deriving DecidableEq

/-- Modelled from the spec: the `State` tagged union — a
`LiteralSequenceExpression` or a `ReferenceLengthExpression` whose literal
`sequence` is optional. -/
inductive SequenceState where
  | literal (sequence : String)
  | rle (length : Nat) (repeatSubunitLength : Nat) (sequence : Option String)
deriving DecidableEq

/-- Modelled from the spec: an `Allele` is a location plus a state. -/
structure Allele where
  location : SequenceLocation
  state : SequenceState
deriving DecidableEq

/-- Modelled from the spec: the `SequenceDataProxy` interface — sequence
slices (zero-based half-open) and accession/namespace resolution. -/
structure SequenceDataProxy where
  getSequence : String → Nat → Nat → String
  translateSequenceIdentifier : String → String

/-- Modelled from the spec: the configuration recognized by
`translate_from` (`normalize`, `require_validation`, `rle_seq_limit`,
`default_assembly_name`, and the RLE-detection switch of the
normalization engine). -/
structure TranslatorConfig where
  normalize : Bool
  rle : Bool
  requireValidation : Bool
  rleSeqLimit : Option Nat
  defaultAssemblyName : String

/-- Modelled from the spec: the error taxonomy of the translation engine
(syntax, reference-mismatch with structured context, type, and
missing-data errors). -/
inductive TranslationError where
  | syntaxError
  | referenceMismatch (expected : String) (actual : String)
      (posStart : Nat) (posStop : Nat) (message : String)
  | typeError (message : String)
  | missingDataError (message : String)
deriving DecidableEq

/-- Modelled from the spec: the reference-mismatch error text pinned by
test_from_gnomad. -/
def refMismatchMsg (expected actual ctx : String) (s e : Nat) : String :=
  "Expected reference sequence " ++ expected ++ " on " ++ ctx ++
  " at positions (" ++ toString s ++ ", " ++ toString e ++ ") but found " ++ actual

/-- Modelled from the spec: compare a supplied reference allele with the
proxy's actual sequence at the interval, failing with a
reference-mismatch error unless validation is disabled. -/
def validateRef (p : SequenceDataProxy) (sr ctx : String) (s e : Nat)
    (ref : String) (requireValidation : Bool) : Except TranslationError Unit :=
  if requireValidation then
    let actual := p.getSequence sr s e
    if actual = ref then .ok ()
    else .error (.referenceMismatch ref actual s e (refMismatchMsg ref actual ctx s e))
  else .ok ()

/-- Length of the longest common prefix of two character lists. -/
def commonPrefixLen : List Char → List Char → Nat
  | a :: as, b :: bs => if a = b then commonPrefixLen as bs + 1 else 0
  | _, _ => 0

/-- Length of the longest common suffix of two character lists. -/
def commonSuffixLen (a b : List Char) : Nat :=
  commonPrefixLen a.reverse b.reverse

/-- `n` concatenated copies of a character list. -/
def repeatChunk (su : List Char) : Nat → List Char
  | 0 => []
  | n + 1 => su ++ repeatChunk su n

/-- Search for the smallest period `d` starting from a candidate. -/
def minPeriodAux (u : List Char) : Nat → Nat → Nat
  | 0, d => d
  | fuel + 1, d =>
      if u.length % d = 0 ∧ u = repeatChunk (u.take d) (u.length / d) then d
      else minPeriodAux u fuel (d + 1)

/-- Modelled from the spec: the minimal period of a repeat unit — the
smallest divisor `d` of the length such that the list is the `d`-prefix
repeated. -/
def minPeriod (u : List Char) : Nat := minPeriodAux u u.length 1

/-- Modelled from the spec: extend the repeat region rightward while the
reference continues with whole copies of the repeat subunit. -/
def scanRight (p : SequenceDataProxy) (sr : String) (su : List Char) :
    Nat → Nat → Nat
  | 0, e => e
  | fuel + 1, e =>
      if su ≠ [] ∧ p.getSequence sr e (e + su.length) = ⟨su⟩ then
        scanRight p sr su fuel (e + su.length)
      else e

/-- Modelled from the spec: the normalization engine (steps 3-5 of §4.4,
absent from src/): trim the shared suffix then prefix of the reference and
alternate alleles; a substitution stays a `Literal`; a pure
insertion/deletion becomes, when RLE detection is enabled, a
`ReferenceLengthExpression` over the ambient repeat region whose subunit
is the minimal period of the net edit, carrying the expanded literal only
within `rleSeqLimit`. -/
def normalizeRaw (p : SequenceDataProxy) (cfg : TranslatorConfig)
    (sr : SeqRef) (srAcc : String) (s e : Nat) (ref alt : List Char) : Allele :=
  let k := commonSuffixLen ref alt
  let ref1 := ref.take (ref.length - k)
  let alt1 := alt.take (alt.length - k)
  let e1 := e - k
  let j := commonPrefixLen ref1 alt1
  let ref2 := ref1.drop j
  let alt2 := alt1.drop j
  let s1 := s + j
  if ref2 = [] ∧ alt2 = [] then
    ⟨⟨s, e, sr⟩, .literal ⟨alt⟩⟩
  else if ref2 ≠ [] ∧ alt2 ≠ [] then
    ⟨⟨s1, e1, sr⟩, .literal ⟨alt2⟩⟩
  else if cfg.rle then
    let u := if ref2 = [] then alt2 else ref2
    let per := minPeriod u
    let su := u.take per
    let regionEnd := scanRight p srAcc su 4096 (s1 + ref2.length)
    let len := regionEnd - s1 - ref2.length + alt2.length
    let seq : String := ⟨alt2⟩ ++ p.getSequence srAcc (s1 + ref2.length) regionEnd
    let carried : Option String :=
      match cfg.rleSeqLimit with
      | none => some seq
      | some lim => if len ≤ lim then some seq else none
    ⟨⟨s1, regionEnd, sr⟩, .rle len per carried⟩
  else
    ⟨⟨s1, e1, sr⟩, .literal ⟨alt2⟩⟩

/-- Modelled from the spec: shared tail of the 1-based
chromosome/position/ref/alt notations (gnomAD and Beacon): convert to
interbase coordinates, resolve the accession, validate the supplied
reference, then normalize or emit the raw literal allele. -/
def chromPosRefAlt (p : SequenceDataProxy) (cfg : TranslatorConfig)
    (chrom : List Char) (pos : Nat) (ref alt : List Char) :
    Except TranslationError Allele := do
  let s := pos - 1
  let e := s + ref.length
  let ctx : String := cfg.defaultAssemblyName ++ ":" ++ ⟨chrom⟩
  let srAcc := p.translateSequenceIdentifier ctx
  let _ ← validateRef p srAcc ctx s e ⟨ref⟩ cfg.requireValidation
  let sr := SeqRef.resolved ⟨srAcc⟩
  if cfg.normalize then
    .ok (normalizeRaw p cfg sr srAcc s e ref alt)
  else
    .ok ⟨⟨s, e, sr⟩, .literal ⟨alt⟩⟩

/-- Modelled from the spec: validity of the four gnomAD fields — nonempty
chromosome, decimal position, and allele fields restricted to the
characters `ACGTURYKMSWBDHVN`. -/
def gnomad4Ok (chrom pos ref alt : List Char) : Bool :=
  !chrom.isEmpty && !pos.isEmpty && pos.all isDigitChar &&
  !ref.isEmpty && ref.all (gnomadAlleleChars.contains ·) &&
  !alt.isEmpty && alt.all (gnomadAlleleChars.contains ·)

/-- Modelled from the spec: the raw tuple from the split gnomAD fields. -/
def gnomadFields : List (List Char) → Option (List Char × Nat × List Char × List Char)
  | [chrom, pos, ref, alt] =>
      if gnomad4Ok chrom pos ref alt then some (chrom, natOfDigits pos, ref, alt)
      else none
  | _ => none

/-- Modelled from the spec: acceptance by the gnomAD fields, as a
predicate on the split string. -/
def gnomadFieldsOk : List (List Char) → Bool
  | [chrom, pos, ref, alt] => gnomad4Ok chrom pos ref alt
  | _ => false

/-- Modelled from the spec: the gnomAD raw-tuple parser
(`chrom-pos-ref-alt`, 1-based, allele fields over `ACGTURYKMSWBDHVN`). -/
def parseGnomad (s : String) : Option (List Char × Nat × List Char × List Char) :=
  gnomadFields (splitOnChar '-' s.data)

/-- Modelled from the spec: the grammar of the gnomAD notation — four
`-`-separated fields, a decimal position and allele fields restricted to
`ACGTURYKMSWBDHVN`. -/
def gnomadGrammar (s : String) : Bool :=
  gnomadFieldsOk (splitOnChar '-' s.data)

/-- Modelled from the spec: `AlleleTranslator._from_gnomad` (not under
src/): parse, then convert, validate and normalize. -/
def fromGnomad (p : SequenceDataProxy) (cfg : TranslatorConfig) (s : String) :
    Except TranslationError Allele :=
  match parseGnomad s with
  | none => .error .syntaxError
  | some (chrom, pos, ref, alt) => chromPosRefAlt p cfg chrom pos ref alt

/-- Modelled from the spec: `AlleleTranslator._from_beacon` (not under
src/): `chrom : pos ref > alt`, 1-based, space-delimited. -/
def fromBeacon (p : SequenceDataProxy) (cfg : TranslatorConfig) (s : String) :
    Except TranslationError Allele :=
  match splitOnChar ' ' s.data with
  | [chrom, co, pos, ref, gt, alt] =>
      if co = [':'] ∧ gt = ['>'] ∧ chrom ≠ [] ∧ pos ≠ [] ∧ pos.all isDigitChar ∧
         ref ≠ [] ∧ alt ≠ [] then
        chromPosRefAlt p cfg chrom (natOfDigits pos) ref alt
      else .error .syntaxError
  | _ => .error .syntaxError

/-- Modelled from the spec: `AlleleTranslator._from_spdi` (not under
src/): `accession:0-based-position:deleted-count-or-sequence:inserted`;
a deleted count takes the reference slice from the proxy, a deleted
sequence is validated against it. -/
def fromSpdi (p : SequenceDataProxy) (cfg : TranslatorConfig) (str : String) :
    Except TranslationError Allele := do
  match splitOnChar ':' str.data with
  | [acc, pos, del, ins] =>
      if pos ≠ [] ∧ pos.all isDigitChar then do
        let s := natOfDigits pos
        let srAcc := p.translateSequenceIdentifier ("refseq:" ++ (⟨acc⟩ : String))
        let sr := SeqRef.resolved ⟨srAcc⟩
        if del.all isDigitChar then do
          let e := s + (if del = [] then 0 else natOfDigits del)
          let ref := p.getSequence srAcc s e
          if cfg.normalize then
            .ok (normalizeRaw p cfg sr srAcc s e ref.data ins)
          else
            .ok ⟨⟨s, e, sr⟩, .literal ⟨ins⟩⟩
        else do
          let e := s + del.length
          let ctx : String := "refseq:" ++ (⟨acc⟩ : String)
          let _ ← validateRef p srAcc ctx s e ⟨del⟩ cfg.requireValidation
          if cfg.normalize then
            .ok (normalizeRaw p cfg sr srAcc s e del ins)
          else
            .ok ⟨⟨s, e, sr⟩, .literal ⟨ins⟩⟩
      else .error .syntaxError
  | _ => .error .syntaxError

/-- Modelled from the spec: the HGVS descriptor forms exercised by the
claims — a genomic substitution `pos ref > alt` and a duplication
`start _ end dup`. -/
inductive HgvsDesc where
  | subst (pos : Nat) (ref : Char) (alt : Char)
  | dup (s : Nat) (e : Nat)

/-- Modelled from the spec: parse the part of an HGVS descriptor after
`g.`/`n.`. -/
def parseHgvsDesc (l : List Char) : Option HgvsDesc :=
  let pos := l.takeWhile isDigitChar
  let rest := l.dropWhile isDigitChar
  if pos = [] then none
  else
    match rest with
    | [r, '>', a] =>
        if gnomadAlleleChars.contains r && gnomadAlleleChars.contains a then
          some (.subst (natOfDigits pos) r a)
        else none
    | '_' :: rest2 =>
        let pos2 := rest2.takeWhile isDigitChar
        let rest3 := rest2.dropWhile isDigitChar
        if pos2 ≠ [] ∧ rest3 = ['d', 'u', 'p'] then
          some (.dup (natOfDigits pos) (natOfDigits pos2))
        else none
    | _ => none

/-- Modelled from the spec: `AlleleTranslator._from_hgvs` (not under
src/) restricted to the genomic substitution and duplication forms used
by the tests. -/
def fromHgvs (p : SequenceDataProxy) (cfg : TranslatorConfig) (str : String) :
    Except TranslationError Allele := do
  match splitOnChar ':' str.data with
  | [acc, desc] =>
      match desc with
      | t :: '.' :: body =>
          if t = 'g' ∨ t = 'n' then
            let srAcc := p.translateSequenceIdentifier ("refseq:" ++ (⟨acc⟩ : String))
            let sr := SeqRef.resolved ⟨srAcc⟩
            match parseHgvsDesc body with
            | some (.subst pos r a) => do
                let s := pos - 1
                let ctx : String := "refseq:" ++ (⟨acc⟩ : String)
                let _ ← validateRef p srAcc ctx s pos ⟨[r]⟩ cfg.requireValidation
                if cfg.normalize then
                  .ok (normalizeRaw p cfg sr srAcc s pos [r] [a])
                else
                  .ok ⟨⟨s, pos, sr⟩, .literal ⟨[a]⟩⟩
            | some (.dup ds de) => do
                let s := ds - 1
                let ref := p.getSequence srAcc s de
                let alt := ref ++ ref
                if cfg.normalize then
                  .ok (normalizeRaw p cfg sr srAcc s de ref.data alt.data)
                else
                  .ok ⟨⟨s, de, sr⟩, .literal alt⟩
            | none => .error .syntaxError
          else .error .syntaxError
      | _ => .error .syntaxError
  | _ => .error .syntaxError

/-- Modelled from the spec: `translate_from(text, fmt)` — dispatch to the
matching notation parser. -/
def translateFrom (p : SequenceDataProxy) (cfg : TranslatorConfig)
    (fmt : String) (s : String) : Except TranslationError Allele :=
  if fmt = "gnomad" then fromGnomad p cfg s
  else if fmt = "beacon" then fromBeacon p cfg s
  else if fmt = "spdi" then fromSpdi p cfg s
  else if fmt = "hgvs" then fromHgvs p cfg s
  else .error .syntaxError

/-- Modelled from the spec: `translate_to(variant, fmt)` (not under src/):
requires a resolved `SequenceReference`, requires the state's literal
sequence (missing-data error for an elided RLE literal), and renders the
SPDI or HGVS strings pinned by the tests. -/
def translateTo (p : SequenceDataProxy) (a : Allele) (fmt : String) :
    Except TranslationError (List String) := do
  match a.location.sequenceReference with
  | .iri _ => .error (.typeError "`vo.location.sequenceReference` expects a `SequenceReference`")
  | .resolved r => do
      let seq ← match a.state with
        | .literal sq => .ok sq
        | .rle _ _ (some sq) => .ok sq
        | .rle _ _ none =>
            .error (.missingDataError "cannot reconstruct an elided RLE literal sequence")
      let acc := p.translateSequenceIdentifier ("ga4gh:" ++ r.refgetAccession)
      let s := a.location.start
      let e := a.location.stop
      if fmt = "spdi" then
        .ok [acc ++ ":" ++ toString s ++ ":" ++ toString (e - s) ++ ":" ++ seq]
      else if fmt = "hgvs" then
        if seq.length = 2 * (e - s) ∧ 0 < e - s then
          .ok [acc ++ ":g." ++ toString (s + 1) ++ "_" ++ toString e ++ "dup"]
        else if e = s + 1 ∧ seq.length = 1 then
          let ref := p.getSequence r.refgetAccession s e
          if ref ≠ seq then
            .ok [acc ++ ":g." ++ toString e ++ ref ++ ">" ++ seq]
          else
            .ok [acc ++ ":g." ++ toString e ++ "="]
        else .error (.typeError "unsupported shape in the modelled HGVS renderer")
      else .error .syntaxError

/-- The refget accession of GRCh38 chromosome 19 (pinned by the tests). -/
def sq19 : String := "SQ.IIB53T8CNeJJdUqzn9V_JnRtQadwWCbl"

/-- The refget accession of GRCh38 chromosome 13 (pinned by the tests). -/
def sq13 : String := "SQ._0wi-qoDrvram155UmcSC-zA5ZK4fpLT"

/-- The refget accession of GRCh38 chromosome 7 (pinned by the tests). -/
def sq7 : String := "SQ.F-LrLMe1SRpfUZHkQmvkVKFEGaoDeHul"

/-- The 52-base repeat subunit of the NC_000013.11 duplication test
(first half of the 104-base literal pinned by test_rle_seq_limit). -/
def dupUnit : String := "TTTAGTTGAACTACAGGTTTTTTTGTTGTTGTTGTTTTGATTTTTTTTTTTT"

/-- Modelled from the spec: the reference-sequence data pinned by the
tests' VCR cassettes, as a concrete `SequenceDataProxy`; slices not pinned
by any test return `""`. -/
def cassetteProxy : SequenceDataProxy where
  translateSequenceIdentifier key :=
    if key = "GRCh38:19" ∨ key = "refseq:NC_000019.10" then sq19
    else if key = "GRCh38:13" ∨ key = "refseq:NC_000013.11" then sq13
    else if key = "refseq:NC_000007.14" then sq7
    else if key = "ga4gh:" ++ sq19 then "NC_000019.10"
    else if key = "ga4gh:" ++ sq13 then "NC_000013.11"
    else if key = "ga4gh:" ++ sq7 then "NC_000007.14"
    else ""
  getSequence acc s e :=
    if acc = sq19 ∧ s = 44908821 ∧ e = 44908822 then "C"
    else if acc = sq13 ∧ s = 20003095 ∧ e = 20003097 then "AC"
    else if acc = sq13 ∧ s = 20003096 ∧ e = 20003097 then "C"
    else if acc = sq13 ∧ s = 20003097 ∧ e = 20003098 then "T"
    else if acc = sq7 ∧ s = 55181319 ∧ e = 55181320 then "A"
    else if acc = sq13 ∧ s = 32936731 ∧ e = 32936732 then "C"
    else if acc = sq13 ∧ s = 32331042 ∧ e = 32331094 then dupUnit
    else ""

/-- The translator configuration used by the normalization claims:
normalize with RLE detection, validate, default `rle_seq_limit` of 50,
GRCh38 assembly. -/
def cfgNorm : TranslatorConfig :=
  ⟨true, true, true, some 50, "GRCh38"⟩

/-- `cfgNorm` with RLE detection disabled. -/
def cfgNoRle : TranslatorConfig :=
  ⟨true, false, true, some 50, "GRCh38"⟩

/-- `cfgNorm` with validation disabled. -/
def cfgNoValidation : TranslatorConfig :=
  ⟨true, true, false, some 50, "GRCh38"⟩

/-- `cfgNorm` with an unlimited `rle_seq_limit`. -/
def cfgNoLimit : TranslatorConfig :=
  ⟨true, true, true, none, "GRCh38"⟩

/-- Modelled from the spec: `GA4GH_IR_REGEXP` (imported by
src/src/ga4gh/core/_internal/models.py from a module not under src/),
the pattern recognizing a GA4GH identifier
`<namespace>:<Prefix>.<digest>` — the fixed `ga4gh` namespace, a 1-4
uppercase-letter type prefix, and a 32-character digest over
`[A-Za-z0-9_-]` — and extracting the digest group. -/
def ga4ghIrMatch (s : String) : Option String :=
  match splitOnChar ':' s.data with
  | [ns, rest] =>
      if ns = "ga4gh".data then
        match splitOnChar '.' rest with
        | [pfx, dg] =>
            if 1 ≤ pfx.length ∧ pfx.length ≤ 4 ∧
               pfx.all (fun c => 'A' ≤ c && c ≤ 'Z') ∧
               dg.length = 32 ∧ dg.all isB64urlChar then some ⟨dg⟩
            else none
        | _ => none
      else none
  | _ => none

/-- `IRI.ga4gh_serialize` from src/src/ga4gh/core/_internal/models.py:
serialize the matched digest group when the stored string matches
`GA4GH_IR_REGEXP`, the stored string itself otherwise. -/
def IRI.ga4gh_serialize (root : String) : String :=
  match ga4ghIrMatch root with
  | some d => d
  | none => root

end VrsPython

namespace VrsClaims

open VrsPython

/-- C1: for every byte string `b`, `ga4gh_digest` computes the base64url
encoding (no padding) of the first 24 bytes of `sha512(b)` and yields a
32-character string over the alphabet `[A-Za-z0-9_-]`; the empty byte
string digests to `z4PhNX7vuL3xVChQ1m2AB9Yg5AULVxXc` and the bytes `ACGT`
to the different string `aKF498dAxcJAqme6QYQ7EZ07-fiw8Kw2`. -/
theorem C1_digest_format :
    (∀ b : List Nat,
       ga4gh_digest b = ⟨b64urlEncode ((sha512Bytes b).take 24)⟩ ∧
       (ga4gh_digest b).length = 32 ∧
       ((ga4gh_digest b).data.all isB64urlChar) = true) ∧
    ga4gh_digest [] = "z4PhNX7vuL3xVChQ1m2AB9Yg5AULVxXc" ∧
    ga4gh_digest (asciiBytes "ACGT") = "aKF498dAxcJAqme6QYQ7EZ07-fiw8Kw2" ∧
    ("z4PhNX7vuL3xVChQ1m2AB9Yg5AULVxXc" : String) ≠
      "aKF498dAxcJAqme6QYQ7EZ07-fiw8Kw2" := by
  refine ⟨fun b => ⟨rfl, ?_, ?_⟩, by decide, by decide, by decide⟩
  · show (b64urlEncode ((sha512Bytes b).take 24)).length = 32
    rw [b64urlEncode_length, sha512Bytes_take_length b 24 (by norm_num)]
  · exact digest_sized_all_alpha b 24 (by norm_num) rfl

/-- C10: `ga4gh_digest` never strips base64 padding, so its output is
unpadded only because the default `digest_size` of 24 is a multiple of 3:
for every blob and every `d ≤ 64` with `d % 3 ≠ 0` the output ends in
`'='`, and the 32-character unpadded-format guarantee holds exactly for
`d = 24`. -/
theorem C10_padding_only_for_24 :
    (∀ (blob : List Nat) (d : Nat), d ≤ 64 → d % 3 ≠ 0 →
       (ga4gh_digest_sized blob d).data.getLast? = some '=') ∧
    (∀ (blob : List Nat) (d : Nat), d ≤ 64 →
       (((ga4gh_digest_sized blob d).length = 32 ∧
         ((ga4gh_digest_sized blob d).data.all isB64urlChar) = true) ↔ d = 24)) := by
  constructor
  · intro blob d hle h3
    exact b64urlEncode_getLast _ (by rw [sha512Bytes_take_length blob d hle]; exact h3)
  · intro blob d hle
    constructor
    · rintro ⟨hlen, halpha⟩
      have hl : (b64urlEncode ((sha512Bytes blob).take d)).length = 32 := hlen
      rw [b64urlEncode_length, sha512Bytes_take_length blob d hle] at hl
      by_contra hne
      have h3 : d % 3 ≠ 0 := by
        intro h3
        exact hne (by omega)
      have hlast := b64urlEncode_getLast ((sha512Bytes blob).take d)
        (by rw [sha512Bytes_take_length blob d hle]; exact h3)
      have hmem : '=' ∈ (ga4gh_digest_sized blob d).data := by
        obtain ⟨hne, heq⟩ :=
          List.mem_getLast?_eq_getLast (Option.mem_def.mpr hlast)
        rw [heq]
        exact List.getLast_mem hne
      rw [List.all_eq_true] at halpha
      have := halpha '=' hmem
      simp [isB64urlChar] at this
    · rintro rfl
      refine ⟨?_, digest_sized_all_alpha blob 24 (by norm_num) rfl⟩
      show (b64urlEncode ((sha512Bytes blob).take 24)).length = 32
      rw [b64urlEncode_length, sha512Bytes_take_length blob 24 (by norm_num)]

/-- Witness for C10: its hypotheses hold at `blob = []` with `d = 25`
(padded output) and `d = 24` (the 32-character unpadded format). -/
theorem C10_padding_witness :
    (ga4gh_digest_sized [] 25).data.getLast? = some '=' ∧
    (((ga4gh_digest_sized [] 24).length = 32 ∧
      ((ga4gh_digest_sized [] 24).data.all isB64urlChar) = true) ↔ 24 = 24) :=
  ⟨C10_padding_only_for_24.1 [] 25 (by norm_num) (by norm_num),
   C10_padding_only_for_24.2 [] 24 (by norm_num)⟩

/-- C2: the four renderings of the SNV at GRCh38 chr19 position 44908822
C>T — HGVS, Beacon, SPDI and gnomAD — each parsed and normalized against
the cassette-pinned reference data, all yield the identical canonical
Allele with interval `[44908821, 44908822)` and literal state `"T"` (and
therefore the identical digest). -/
theorem C2_cross_notation_agreement :
    ∃ a : Allele,
      translateFrom cassetteProxy cfgNorm "hgvs" "NC_000019.10:g.44908822C>T" = .ok a ∧
      translateFrom cassetteProxy cfgNorm "beacon" "19 : 44908822 C > T" = .ok a ∧
      translateFrom cassetteProxy cfgNorm "spdi" "NC_000019.10:44908821:1:T" = .ok a ∧
      translateFrom cassetteProxy cfgNorm "gnomad" "19-44908822-C-T" = .ok a ∧
      a.location.start = 44908821 ∧ a.location.stop = 44908822 ∧
      a.location.sequenceReference = .resolved ⟨sq19⟩ ∧
      a.state = .literal "T" :=
  ⟨⟨⟨44908821, 44908822, .resolved ⟨sq19⟩⟩, .literal "T"⟩,
   rfl, rfl, rfl, rfl, rfl, rfl, rfl, rfl⟩

/-- C3: the gnomAD input `13-20003096-AC-A`, normalized without RLE,
yields interval `[20003096, 20003097)` with literal state `""` (the
shared leading base trimmed away); with RLE normalization enabled the
same input yields a `ReferenceLengthExpression` with `length = 0` and
`repeatSubunitLength = 1` at the same interval. -/
theorem C3_gnomad_deletion_normalization :
    translateFrom cassetteProxy cfgNoRle "gnomad" "13-20003096-AC-A" =
      .ok ⟨⟨20003096, 20003097, .resolved ⟨sq13⟩⟩, .literal ""⟩ ∧
    translateFrom cassetteProxy cfgNorm "gnomad" "13-20003096-AC-A" =
      .ok ⟨⟨20003096, 20003097, .resolved ⟨sq13⟩⟩, .rle 0 1 (some "")⟩ :=
  ⟨rfl, rfl⟩

/-- C4: for a representative string of each notation supported by reverse
translation (SPDI and HGVS), `translate_to (translate_from s fmt) fmt`
succeeds and returns exactly the one-element list containing `s`
itself. -/
theorem C4_round_trip :
    (translateFrom cassetteProxy cfgNorm "spdi" "NC_000019.10:44908821:1:T").bind
        (fun a => translateTo cassetteProxy a "spdi") =
      .ok ["NC_000019.10:44908821:1:T"] ∧
    (translateFrom cassetteProxy cfgNorm "hgvs" "NC_000007.14:g.55181320A>T").bind
        (fun a => translateTo cassetteProxy a "hgvs") =
      .ok ["NC_000007.14:g.55181320A>T"] :=
  ⟨rfl, rfl⟩

/-- Counterexample to C5 as stated: on the mismatching gnomAD input
`13-32936732-G-C` (1-based position 32936732) the reference-mismatch
error reports the position pair `(32936731, 32936732)` — the zero-based
half-open (interbase) range — which differs from the 1-based range
`(32936732, 32936732)` of the single mismatched base. -/
theorem C5_counterexample_interbase_range :
    translateFrom cassetteProxy cfgNorm "gnomad" "13-32936732-G-C" =
      .error (.referenceMismatch "G" "C" 32936731 32936732
        "Expected reference sequence G on GRCh38:13 at positions (32936731, 32936732) but found C") ∧
    (32936731, 32936732) ≠ (32936732, 32936732) :=
  ⟨rfl, by decide⟩

/-- C5 (amended): when a supplied reference allele disagrees with the
proxy's sequence and validation is enabled, validation fails with a
reference-mismatch error reporting the expected sequence, the actual
sequence and the zero-based half-open (interbase) position range; when
validation is disabled the same input succeeds with the supplied
reference trusted. -/
theorem C5_reference_mismatch :
    (∀ (p : SequenceDataProxy) (sr ctx : String) (s e : Nat) (r : String),
        p.getSequence sr s e ≠ r →
        validateRef p sr ctx s e r true =
          .error (.referenceMismatch r (p.getSequence sr s e) s e
            (refMismatchMsg r (p.getSequence sr s e) ctx s e))) ∧
    (∀ (p : SequenceDataProxy) (sr ctx : String) (s e : Nat) (r : String),
        validateRef p sr ctx s e r false = .ok ()) ∧
    translateFrom cassetteProxy cfgNorm "gnomad" "13-32936732-G-C" =
      .error (.referenceMismatch "G" "C" 32936731 32936732
        "Expected reference sequence G on GRCh38:13 at positions (32936731, 32936732) but found C") ∧
    (∃ a, translateFrom cassetteProxy cfgNoValidation "gnomad" "13-32936732-G-C" = .ok a) := by
  refine ⟨?_, ?_, rfl, ⟨_, rfl⟩⟩
  · intro p sr ctx s e r h
    unfold validateRef
    rw [if_pos rfl, if_neg h]
  · intro p sr ctx s e r
    rfl

/-- Witness for C5 (amended): the generic mismatch branch applied to the
cassette proxy at the test's failing input. -/
theorem C5_reference_mismatch_witness :
    validateRef cassetteProxy sq13 "GRCh38:13" 32936731 32936732 "G" true =
      .error (.referenceMismatch "G" (cassetteProxy.getSequence sq13 32936731 32936732)
        32936731 32936732
        (refMismatchMsg "G" (cassetteProxy.getSequence sq13 32936731 32936732)
          "GRCh38:13" 32936731 32936732)) :=
  C5_reference_mismatch.1 cassetteProxy sq13 "GRCh38:13" 32936731 32936732 "G" (by decide)

/-- C6: reverse translation of any variant whose location's
`sequenceReference` is an unresolved IRI reference token fails, for every
format, with a type error naming the exact field expected. -/
theorem C6_unresolved_sequence_reference :
    ∀ (p : SequenceDataProxy) (a : Allele) (fmt s : String),
      a.location.sequenceReference = .iri s →
      translateTo p a fmt =
        .error (.typeError "`vo.location.sequenceReference` expects a `SequenceReference`") := by
  intro p a fmt s h
  obtain ⟨⟨st, sp, sr⟩, stt⟩ := a
  cases sr with
  | resolved r => simp at h
  | iri s2 => rfl

/-- Witness for C6: the test's IRI-bearing allele fed to the HGVS
renderer. -/
theorem C6_unresolved_sequence_reference_witness :
    translateTo cassetteProxy
      ⟨⟨1262, 1263, .iri "seqrefs.jsonc#/NM_181798.1"⟩, .literal "T"⟩ "hgvs" =
      .error (.typeError "`vo.location.sequenceReference` expects a `SequenceReference`") :=
  C6_unresolved_sequence_reference cassetteProxy
    ⟨⟨1262, 1263, .iri "seqrefs.jsonc#/NM_181798.1"⟩, .literal "T"⟩ "hgvs"
    "seqrefs.jsonc#/NM_181798.1" rfl

/-- C7: translating `NC_000013.11:g.32331043_32331094dup` under the
default `rle_seq_limit` elides the 104-base RLE literal, and reverse
translation then fails with the missing-data error; re-translating with
`rle_seq_limit = None` carries the full literal and reverse-translates to
exactly the original notation string. -/
theorem C7_rle_seq_limit :
    translateFrom cassetteProxy cfgNorm "hgvs" "NC_000013.11:g.32331043_32331094dup" =
      .ok ⟨⟨32331042, 32331094, .resolved ⟨sq13⟩⟩, .rle 104 52 none⟩ ∧
    (translateFrom cassetteProxy cfgNorm "hgvs"
        "NC_000013.11:g.32331043_32331094dup").bind
        (fun a => translateTo cassetteProxy a "hgvs") =
      .error (.missingDataError "cannot reconstruct an elided RLE literal sequence") ∧
    translateFrom cassetteProxy cfgNoLimit "hgvs" "NC_000013.11:g.32331043_32331094dup" =
      .ok ⟨⟨32331042, 32331094, .resolved ⟨sq13⟩⟩, .rle 104 52 (some (dupUnit ++ dupUnit))⟩ ∧
    (translateFrom cassetteProxy cfgNoLimit "hgvs"
        "NC_000013.11:g.32331043_32331094dup").bind
        (fun a => translateTo cassetteProxy a "hgvs") =
      .ok ["NC_000013.11:g.32331043_32331094dup"] :=
  ⟨rfl, rfl, rfl, rfl⟩

/-- Acceptance by the gnomAD field validator determines whether a raw
tuple is produced. -/
theorem gnomadFields_isSome (L : List (List Char)) :
    (gnomadFields L).isSome = gnomadFieldsOk L := by
  rcases L with _ | ⟨c, _ | ⟨p, _ | ⟨r, _ | ⟨a, _ | ⟨x, rest⟩⟩⟩⟩⟩
  · rfl
  · rfl
  · rfl
  · rfl
  · cases h : gnomad4Ok c p r a <;> simp [gnomadFields, gnomadFieldsOk, h]
  · rfl

/-- C8: a string is accepted by the gnomAD parser exactly when it matches
the gnomAD grammar (allele fields restricted to `ACGTURYKMSWBDHVN`); a
string that does not match always surfaces a syntax error, and a string
that parses proceeds — with validation disabled it yields an allele. -/
theorem C8_gnomad_grammar :
    (∀ s : String, (parseGnomad s).isSome = gnomadGrammar s) ∧
    (∀ (p : SequenceDataProxy) (cfg : TranslatorConfig) (s : String),
        gnomadGrammar s = false → fromGnomad p cfg s = .error .syntaxError) ∧
    (∀ (p : SequenceDataProxy) (cfg : TranslatorConfig) (s : String)
        (c : List Char) (pos : Nat) (r a : List Char),
        parseGnomad s = some (c, pos, r, a) → cfg.requireValidation = false →
        ∃ x, fromGnomad p cfg s = .ok x) := by
  refine ⟨fun s => gnomadFields_isSome _, ?_, ?_⟩
  · intro p cfg s h
    have h2 : parseGnomad s = none := by
      have hs := gnomadFields_isSome (splitOnChar '-' s.data)
      unfold gnomadGrammar at h
      rw [h] at hs
      exact Option.not_isSome_iff_eq_none.mp (by simp [parseGnomad, hs])
    unfold fromGnomad
    rw [h2]
  · intro p cfg s c pos r a hparse hval
    unfold fromGnomad
    rw [hparse]
    unfold chromPosRefAlt validateRef
    rw [hval]
    cases hn : cfg.normalize <;> simp [hn, Except.bind] <;> exact ⟨_, rfl⟩

/-- Witness for C8: the test's malformed input (`helloworld` reference
field) surfaces the syntax error, and the all-valid-characters input
parses to an allele with validation disabled. -/
theorem C8_gnomad_grammar_witness :
    fromGnomad cassetteProxy cfgNorm "13-32936732-helloworld-C" = .error .syntaxError ∧
    (∃ x, fromGnomad cassetteProxy cfgNoValidation
        "7-2-ACGTURYKMSWBDHVN-ACGTURYKMSWBDHVN" = .ok x) :=
  ⟨C8_gnomad_grammar.2.1 cassetteProxy cfgNorm "13-32936732-helloworld-C" (by decide),
   C8_gnomad_grammar.2.2 cassetteProxy cfgNoValidation
     "7-2-ACGTURYKMSWBDHVN-ACGTURYKMSWBDHVN"
     "7".data 2 "ACGTURYKMSWBDHVN".data "ACGTURYKMSWBDHVN".data (by decide) rfl⟩

/-- C9: JSON serialization of an IRI applies the GA4GH identifier
pattern to the stored string: when it matches, the serialized value is
exactly the extracted digest component; when it does not, the serialized
value is the original string unchanged — e.g. a `ga4gh:VA.<digest>`
identifier serializes to its digest while a relative reference like
`seqrefs.jsonc#/NM_181798.1` passes through. -/
theorem C9_iri_serialization :
    (∀ s d : String, ga4ghIrMatch s = some d → IRI.ga4gh_serialize s = d) ∧
    (∀ s : String, ga4ghIrMatch s = none → IRI.ga4gh_serialize s = s) ∧
    IRI.ga4gh_serialize "ga4gh:VA.GJ2JySBMXePcV2yItyvCfbGBUoawOBON" =
      "GJ2JySBMXePcV2yItyvCfbGBUoawOBON" ∧
    IRI.ga4gh_serialize "seqrefs.jsonc#/NM_181798.1" =
      "seqrefs.jsonc#/NM_181798.1" := by
  refine ⟨?_, ?_, by decide, by decide⟩
  · intro s d h
    unfold IRI.ga4gh_serialize
    rw [h]
  · intro s h
    unfold IRI.ga4gh_serialize
    rw [h]

/-- Witness for C9: the match branch applied at the pinned identifier. -/
theorem C9_iri_serialization_witness :
    IRI.ga4gh_serialize "ga4gh:SL.28YsnRvD40gKu1x3nev0gRzRz-5OTlpS" =
      "28YsnRvD40gKu1x3nev0gRzRz-5OTlpS" :=
  C9_iri_serialization.1 "ga4gh:SL.28YsnRvD40gKu1x3nev0gRzRz-5OTlpS"
    "28YsnRvD40gKu1x3nev0gRzRz-5OTlpS" (by decide)

end VrsClaims
